import Mathlib

/-
Verification of the heuristic sentiment classifier (src/app.py, function
`classify_sentiment`).  The program text is shallowly embedded below: raw
text is a `List Char`, Python floats are modelled as rationals, Python
sets/lists of strings become lists of `List Char`, and every pass of the
classifier (idiom override, token-level scoring loop, emoji scan,
exclamation boost, ellipsis dampening, polarity-flip idioms, labeling,
evidence report) is a Lean function translated from the corresponding
lines of the source.
-/

/-- ASCII lower-casing of one character, the effect of Python `str.lower`
on the ASCII range (all lexicon entries and pattern literals are ASCII). -/
def lowerChar (c : Char) : Char :=
  if 'A' ≤ c ∧ c ≤ 'Z' then Char.ofNat (c.toNat + 32) else c

/-- `text.lower()` applied characterwise. -/
def pyLower (l : List Char) : List Char := l.map lowerChar

/-- ASCII whitespace, the characters stripped by Python `str.strip()` and
matched by the regex class `\s` (ASCII fragment). -/
def isPySpace (c : Char) : Bool :=
  c = ' ' ∨ c = '\t' ∨ c = '\n' ∨ c = '\r' ∨ c = '\x0b' ∨ c = '\x0c'

/-- Python `str.strip()`: drop leading and trailing whitespace. -/
def pyStrip (l : List Char) : List Char :=
  ((l.dropWhile isPySpace).reverse.dropWhile isPySpace).reverse

/-- Membership in the regex class `[A-Za-z']` used by `WORD_RE` and the
word extraction `re.findall(r"[A-Za-z']+", lowered)`. -/
def isLetterApos (c : Char) : Bool :=
  ('A' ≤ c ∧ c ≤ 'Z') ∨ ('a' ≤ c ∧ c ≤ 'z') ∨ c = '\''

/-- Helper for `splitRuns`: accumulates the current run (reversed). -/
def splitRunsAux (p : Char → Bool) : List Char → List Char → List (List Char)
  | [], acc => if acc.isEmpty then [] else [acc.reverse]
  | c :: cs, acc =>
    if p c then splitRunsAux p cs (c :: acc)
    else if acc.isEmpty then splitRunsAux p cs []
    else acc.reverse :: splitRunsAux p cs []

/-- Maximal runs of characters satisfying `p`: the effect of
`re.findall(r"[A-Za-z']+", s)` when `p` is `isLetterApos`. -/
def splitRuns (p : Char → Bool) (l : List Char) : List (List Char) :=
  splitRunsAux p l []

/-- Boolean list-prefix test. -/
def isPrefixB : List Char → List Char → Bool
  | [], _ => true
  | _ :: _, [] => false
  | a :: as, b :: bs => decide (a = b) && isPrefixB as bs

/-- Python substring containment `needle in hay`. -/
def containsSub (needle : List Char) : List Char → Bool
  | [] => isPrefixB needle []
  | c :: cs => isPrefixB needle (c :: cs) || containsSub needle cs

/-- `hay.split(needle, 1)[1]`: the text after the first occurrence of
`needle` (the callers guard with a containment check first). -/
def afterFirst (needle : List Char) : List Char → List Char
  | [] => []
  | c :: cs =>
    if isPrefixB needle (c :: cs) then (c :: cs).drop needle.length
    else afterFirst needle cs

/-- `contains_any(s, vocab)` from the source: some vocabulary entry is a
substring of `s`. -/
def containsAnySub (vocab : List (List Char)) (s : List Char) : Bool :=
  vocab.any (fun w => containsSub w s)

/-- Membership in the regex class `\w` (ASCII fragment), used to decide
word boundaries `\b`. -/
def isWordCharRe (c : Char) : Bool :=
  ('A' ≤ c ∧ c ≤ 'Z') ∨ ('a' ≤ c ∧ c ≤ 'z') ∨ ('0' ≤ c ∧ c ≤ '9') ∨ c = '_'

/-- A `\b` word boundary holds between a word character and what follows
it exactly when the following text is empty or starts with a non-word
character. -/
def boundaryAfter : List Char → Bool
  | [] => true
  | c :: _ => !isWordCharRe c

/-- A `\b` word boundary holds before a word character exactly when the
preceding character is absent or is a non-word character. -/
def boundaryBefore : Option Char → Bool
  | none => true
  | some c => !isWordCharRe c

/-- `re.search` existence: the position predicate `p` holds on some
suffix of the text (including the empty suffix at the end). -/
def searchSuffixes (p : List Char → Bool) : List Char → Bool
  | [] => p []
  | c :: cs => p (c :: cs) || searchSuffixes p cs

/-- `re.search` existence for patterns that inspect the character just
before the match position (leading `\b`). -/
def searchWithPrev (p : Option Char → List Char → Bool) :
    Option Char → List Char → Bool
  | prev, [] => p prev []
  | prev, c :: cs => p prev (c :: cs) || searchWithPrev p (some c) cs

/-- Shorthand turning string literals into character lists. -/
def strs (l : List String) : List (List Char) := l.map String.data

/-- The positive word lexicon `POS_WORDS` of the source (the five
context-sensitive slang words are members of this set). -/
def POS_WORDS : List (List Char) := strs
  ["good","great","excellent","awesome","amazing","fantastic","love","like","liked","likes",
   "enjoy","enjoyed","wonderful","perfect","nice","sweet","thanks","thank","appreciate",
   "glad","happy","joy","thrilled","delighted","cool","wow",
   "lit","fire","dope","goated","pog","based","legit","clutch","win","winning","w",
   "sick","insane","crazy","ridiculous","wild",
   "chef's","kiss","slaps","banger"]

/-- The negative word lexicon `NEG_WORDS` of the source. -/
def NEG_WORDS : List (List Char) := strs
  ["bad","awful","terrible","horrible","hate","hated","dislike","disliked","worse","worst",
   "annoying","stupid","dumb","useless","broken","buggy","angry","mad","upset","sad",
   "disappointed","disappointing","cringe","gross","sucks","sucked","sucky","lame","meh",
   "trash","mid","cap","salty","ratio","cope","downbad","flake","flaky","weak","fail","l",
   "wtf","smh","bs"]

/-- The negator set `NEGATORS` of the source. -/
def NEGATORS : List (List Char) := strs
  ["not","no","never","hardly","scarcely","barely","without","ain't","isn't","wasn't","don't",
   "doesn't","didn't","can't","couldn't","won't","wouldn't","shouldn't","lack","lacking"]

/-- The intensifier set `INTENSIFIERS` of the source. -/
def INTENSIFIERS : List (List Char) := strs
  ["very","really","so","super","totally","absolutely","insanely","crazy","hella","deadass",
   "fr","for","real"]

/-- The diminisher set `DIMINISHERS` of the source (the literal lists
"of" twice; as a set this is the same membership). -/
def DIMINISHERS : List (List Char) := strs
  ["kinda","kind","of","sorta","sort","slightly","somewhat","a","bit","lowkey"]

/-- The positive emoji set `POS_EMOJI` of the source.  One entry, the red
heart, is a two-codepoint sequence (U+2764 followed by the variation
selector U+FE0F); all others are single characters.  The literal in the
source lists the beaming-face emoji twice; set membership is unaffected. -/
def POS_EMOJI : List (List Char) :=
  [['🙂'],['😊'],['😄'],['😃'],['😁'],['😍'],['🥰'],['❤','️'],['💖'],['🔥'],['✨'],
   ['👍'],['👏'],['🙌'],['😁'],['😂'],['🤣'],['😎'],['✅'],['💯']]

/-- The negative emoji set `NEG_EMOJI` of the source (all entries are
single characters). -/
def NEG_EMOJI : List (List Char) :=
  [['☹'],['🙁'],['😞'],['😠'],['😡'],['💔'],['👎'],['😢'],['😭'],['🤮'],['🤢'],['😤'],
   ['😒'],['😓'],['😕'],['❌']]

/-- The positive-event context word set `POS_EVENT_WORDS` of the source. -/
def POS_EVENT_WORDS : List (List Char) := strs
  ["bought","buy","got","gift","gifting","surprise","treat","treated",
   "helped","promoted","passed","win","won","upgrade","raise","lunch","dinner","coffee"]

/-- The ambiguous slang set checked in the token loop. -/
def AMBIG_WORDS : List (List Char) := strs ["sick","crazy","insane","ridiculous","wild"]

/-- The positive words inspected by the ellipsis sarcasm dampener. -/
def SARCASM_WORDS : List (List Char) := strs ["great","awesome","amazing","perfect","nice"]

/-- The per-call accumulator: running score plus the evidence lists
`pos_hits, neg_hits, flipped_hits, intens_hits, dim_hits, emo_hits`. -/
structure Ctx where
  score : ℚ
  pos_hits : List (List Char)
  neg_hits : List (List Char)
  flipped_hits : List (List Char)
  intens_hits : List (List Char)
  dim_hits : List (List Char)
  emo_hits : List Char
deriving DecidableEq, Repr

/-- All-empty initial accumulator. -/
def initCtx : Ctx := ⟨0, [], [], [], [], [], []⟩

/-- The alternatives of the disbelief pattern
`(did you really|for real|no way|fr)\b`. -/
def disbeliefAlts : List (List Char) := strs ["did you really", "for real", "no way", "fr"]

/-- One position of the disbelief pattern: some alternative matches here
and is followed by a word boundary (the pattern has no leading boundary). -/
def matchesDisbeliefAt (l : List Char) : Bool :=
  disbeliefAlts.any (fun a => isPrefixB a l && boundaryAfter (l.drop a.length))

/-- `re.search(r"(did you really|for real|no way|fr)\b", after)`. -/
def hasDisbelief (l : List Char) : Bool := searchSuffixes matchesDisbeliefAt l

/-- The "shut up" idiom pass (source lines 89-99). -/
def shutUpPass (lowered : List Char) (ctx : Ctx) : Ctx :=
  if containsSub "shut up".data lowered then
    let after := afterFirst "shut up".data lowered
    if hasDisbelief after && containsAnySub POS_EVENT_WORDS after then
      { ctx with score := ctx.score + 3/2,
                 pos_hits := ctx.pos_hits ++ ["shut up! (excited disbelief)".data] }
    else if !containsAnySub POS_EVENT_WORDS after then
      { ctx with score := ctx.score - 1/5,
                 neg_hits := ctx.neg_hits ++ ["shut up (harsh)".data] }
    else ctx
  else ctx

/-- `words[max(0, i - 3):i]`: the window of up to three words before
index `i`, clipped at the start of the text. -/
def windowSlice (words : List (List Char)) (i : Nat) : List (List Char) :=
  (words.take i).drop (i - 3)

/-- `" ".join(ws)`. -/
def joinSpace (l : List (List Char)) : List Char := (l.intersperse [' ']).flatten

/-- `" ".join(words[i+1:i+6])`: the five-word lookahead string. -/
def lookaheadStr (words : List (List Char)) (i : Nat) : List Char :=
  joinSpace ((words.drop (i + 1)).take 5)

/-- The contextual condition of source lines 110-111: the lookahead
contains a positive-event or positive-lexicon word as a substring, or an
exclamation mark occurs in `original[i:i+80]` (a slice of the raw text
indexed by the word index `i`). -/
def ambigResolves (original : List Char) (words : List (List Char)) (i : Nat) : Bool :=
  containsAnySub (POS_EVENT_WORDS ++ POS_WORDS) (lookaheadStr words i) ||
  containsSub ['!'] ((original.drop i).take 80)

/-- The effective positive flag `w_is_pos` after the ambiguous-word
branch of the token loop. -/
def wIsPosEff (original : List Char) (words : List (List Char)) (i : Nat) : Bool :=
  let w := words.getD i []
  if decide (w ∈ AMBIG_WORDS) && ambigResolves original words i then true
  else decide (w ∈ POS_WORDS)

/-- The effective negative flag `w_is_neg` after the ambiguous-word
branch of the token loop. -/
def wIsNegEff (original : List Char) (words : List (List Char)) (i : Nat) : Bool :=
  let w := words.getD i []
  if decide (w ∈ AMBIG_WORDS) && ambigResolves original words i then false
  else decide (w ∈ NEG_WORDS)

/-- `has_negator = any(t in NEGATORS for t in window_slice)`. -/
def hasNegWindow (words : List (List Char)) (i : Nat) : Bool :=
  (windowSlice words i).any (fun t => decide (t ∈ NEGATORS))

/-- `has_intens = any(t in INTENSIFIERS for t in window_slice)`. -/
def hasIntWindow (words : List (List Char)) (i : Nat) : Bool :=
  (windowSlice words i).any (fun t => decide (t ∈ INTENSIFIERS))

/-- `has_dim = any(t in DIMINISHERS for t in window_slice)`. -/
def hasDimWindow (words : List (List Char)) (i : Nat) : Bool :=
  (windowSlice words i).any (fun t => decide (t ∈ DIMINISHERS))

/-- One iteration of the token-level scoring loop (source lines 103-141)
for the word at index `i`. -/
def stepWord (original : List Char) (words : List (List Char)) (i : Nat) (ctx : Ctx) : Ctx :=
  let w := words.getD i []
  if wIsPosEff original words i || wIsNegEff original words i then
    let base0 : ℚ := if wIsPosEff original words i then 1 else -1
    let base1 := if hasNegWindow words i then -base0 else base0
    let base2 := if hasIntWindow words i then base1 * (3/2) else base1
    let base3 := if hasDimWindow words i then base2 * (13/20) else base2
    let ctx1 := { ctx with
      flipped_hits :=
        if hasNegWindow words i then ctx.flipped_hits ++ ["negated:".data ++ w]
        else ctx.flipped_hits,
      intens_hits := if hasIntWindow words i then ctx.intens_hits ++ [w] else ctx.intens_hits,
      dim_hits := if hasDimWindow words i then ctx.dim_hits ++ [w] else ctx.dim_hits }
    if base3 > 0 then
      { ctx1 with score := ctx1.score + base3, pos_hits := ctx1.pos_hits ++ [w] }
    else
      { ctx1 with score := ctx1.score + base3, neg_hits := ctx1.neg_hits ++ [w] }
  else ctx

/-- The token-level scoring loop: left-to-right fold over word indices. -/
def tokenLoop (original : List Char) (words : List (List Char)) (ctx : Ctx) : Ctx :=
  (List.range words.length).foldl (fun c i => stepWord original words i c) ctx

/-- One character of the emoji scan (source lines 144-150). -/
def emojiStep (ctx : Ctx) (c : Char) : Ctx :=
  if [c] ∈ POS_EMOJI then
    { ctx with score := ctx.score + 3/5, emo_hits := ctx.emo_hits ++ [c] }
  else if [c] ∈ NEG_EMOJI then
    { ctx with score := ctx.score - 3/5, emo_hits := ctx.emo_hits ++ [c] }
  else ctx

/-- The emoji scan over the raw text. -/
def emojiPass (original : List Char) (ctx : Ctx) : Ctx := original.foldl emojiStep ctx

/-- The exclamation boost (source lines 153-155): 0.2 per "!" capped at
three marks. -/
def exclaimPass (original : List Char) (ctx : Ctx) : Ctx :=
  let n := original.count '!'
  if n ≠ 0 then { ctx with score := ctx.score + (min n 3 : ℕ) * (1/5) } else ctx

/-- Boolean suffix test. -/
def listEndsWith (needle l : List Char) : Bool := isPrefixB needle.reverse l.reverse

/-- `ELLIPSIS_RE.search(s)` for `ELLIPSIS_RE = r"\.\.\.$|…$"`: the text
ends in three literal dots or the single ellipsis glyph. -/
def hasTrailingEllipsis (l : List Char) : Bool :=
  listEndsWith "...".data l || listEndsWith ['…'] l

/-- The ellipsis sarcasm dampener (source lines 158-160). -/
def ellipsisPass (original : List Char) (ctx : Ctx) : Ctx :=
  if hasTrailingEllipsis (pyStrip original) then
    if SARCASM_WORDS.any (fun w => decide (w ∈ ctx.pos_hits)) then
      { ctx with score := ctx.score - 2/5 }
    else ctx
  else ctx

/-- One position of `\bnot\s+bad\b`: boundary before, the literal `not`,
at least one whitespace character, the literal `bad`, boundary after. -/
def matchNotBadAt (prev : Option Char) (l : List Char) : Bool :=
  boundaryBefore prev && isPrefixB "not".data l &&
  (let r := l.drop 3
   let r2 := r.dropWhile isPySpace
   !(r.takeWhile isPySpace).isEmpty && isPrefixB "bad".data r2 && boundaryAfter (r2.drop 3))

/-- `re.search(r"\bnot\s+bad\b", lowered)`. -/
def hasNotBad (l : List Char) : Bool := searchWithPrev matchNotBadAt none l

/-- One position of `\bnot\s+(so\s+)?good\b`. -/
def matchNotGoodAt (prev : Option Char) (l : List Char) : Bool :=
  boundaryBefore prev && isPrefixB "not".data l &&
  (let r := l.drop 3
   let r2 := r.dropWhile isPySpace
   !(r.takeWhile isPySpace).isEmpty &&
   ((isPrefixB "good".data r2 && boundaryAfter (r2.drop 4)) ||
    (isPrefixB "so".data r2 &&
     (let s2 := r2.drop 2
      let s3 := s2.dropWhile isPySpace
      !(s2.takeWhile isPySpace).isEmpty && isPrefixB "good".data s3 &&
      boundaryAfter (s3.drop 4)))))

/-- `re.search(r"\bnot\s+(so\s+)?good\b", lowered)`. -/
def hasNotGood (l : List Char) : Bool := searchWithPrev matchNotGoodAt none l

/-- The "not bad" polarity-flip idiom (source lines 163-165). -/
def notBadPass (lowered : List Char) (ctx : Ctx) : Ctx :=
  if hasNotBad lowered then
    { ctx with score := ctx.score + 1, pos_hits := ctx.pos_hits ++ ["not bad".data] }
  else ctx

/-- The "not good" polarity-flip idiom (source lines 166-168). -/
def notGoodPass (lowered : List Char) (ctx : Ctx) : Ctx :=
  if hasNotGood lowered then
    { ctx with score := ctx.score - 1, neg_hits := ctx.neg_hits ++ ["not good".data] }
  else ctx

/-- The lowercase word stream: `[w.lower() for w in
re.findall(r"[A-Za-z']+", lowered)]` (the inner `lower` is the identity
on runs extracted from already-lowered text). -/
def wordsOf (text : List Char) : List (List Char) :=
  splitRuns isLetterApos (pyLower text)

/-- The full scoring pipeline on non-empty input, producing the final
accumulator (source lines 79-168). -/
def classifyCtx (text : List Char) : Ctx :=
  notGoodPass (pyLower text)
    (notBadPass (pyLower text)
      (ellipsisPass text
        (exclaimPass text
          (emojiPass text
            (tokenLoop text (wordsOf text)
              (shutUpPass (pyLower text) initCtx))))))

/-- The final score of an input, 0 on the empty/whitespace short-circuit. -/
def scoreOf (text : List Char) : ℚ :=
  if text = [] ∨ pyStrip text = [] then 0 else (classifyCtx text).score

/-- The label decision (source lines 171-175). -/
def labelFromScore (score : ℚ) : String :=
  if score ≥ 1/2 then "positive" else if score ≤ -1/2 then "negative" else "neutral"

/-- Python `round(q, 3)` (the scores reachable here are exact multiples
of 1/200, where every rounding convention agrees). -/
def round3 (q : ℚ) : ℚ := (round (q * 1000) : ℤ) / 1000

/-- The evidence record: a Python dict whose collection keys may be
absent (`none`), as in the empty-input early return which carries only
the score. -/
structure Evidence where
  score : ℚ
  positive_hits : Option (List (List Char))
  negative_hits : Option (List (List Char))
  flipped_by_negation : Option (List (List Char))
  intensified : Option (List (List Char))
  diminished : Option (List (List Char))
  emoji : Option (List Char)
deriving DecidableEq, Repr

/-- Strict lexicographic comparison of character lists (by codepoint),
the order Python uses to sort strings. -/
def lexLt : List Char → List Char → Bool
  | [], [] => false
  | [], _ :: _ => true
  | _ :: _, [] => false
  | a :: as, b :: bs => if a < b then true else if b < a then false else lexLt as bs

/-- `sorted(set(l))`: distinct elements in ascending order, realised as
an insertion sort of the deduplicated list. -/
def sortedDedup (l : List (List Char)) : List (List Char) :=
  List.insertionSort (fun a b => lexLt b a = false) l.dedup

/-- The evidence dictionary built on the normal return path (source
lines 177-186): score rounded to three decimals, `sorted(set(...))` of
every word-evidence list, and the emoji list verbatim. -/
def buildEvidence (ctx : Ctx) : Evidence :=
  ⟨round3 ctx.score,
   some (sortedDedup ctx.pos_hits), some (sortedDedup ctx.neg_hits),
   some (sortedDedup ctx.flipped_hits), some (sortedDedup ctx.intens_hits),
   some (sortedDedup ctx.dim_hits), some ctx.emo_hits⟩

/-- The evidence record of the empty-input early return, `{"score": 0.0}`:
only the score key is present. -/
def emptyEvidence : Evidence := ⟨0, none, none, none, none, none, none⟩

/-- The top-level classifier `classify_sentiment(text, return_evidence)`. -/
def classify_sentiment (text : List Char) (return_evidence : Bool) :
    String × Option Evidence :=
  if text = [] ∨ pyStrip text = [] then
    ("neutral", if return_evidence then some emptyEvidence else none)
  else
    let ctx := classifyCtx text
    (labelFromScore ctx.score, if return_evidence then some (buildEvidence ctx) else none)

/-
Characterizations of the passes.  Each pass of the pipeline adds a
context-independent delta to the score and appends context-independent
entries to the evidence lists; the definitions below name those deltas
and entries, and the lemmas prove the equations.  They also restate the
scoring step in the vocabulary of the specification (product of a base
polarity, a negation sign, and the two modifier factors; evidence bucket
chosen by the sign of the final contribution).
-/

/-- The contribution of the word at index `i` to the score, written as
the specification describes it: base polarity, times -1 when a negator
occurs in the 3-word backward window, times 3/2 when an intensifier
occurs there, times 13/20 when a diminisher occurs there; zero when the
word is in neither lexicon. -/
def stepContrib (original : List Char) (words : List (List Char)) (i : Nat) : ℚ :=
  if wIsPosEff original words i || wIsNegEff original words i then
    (if wIsPosEff original words i then 1 else -1) *
    (if hasNegWindow words i then -1 else 1) *
    (if hasIntWindow words i then 3/2 else 1) *
    (if hasDimWindow words i then 13/20 else 1)
  else 0

/-- Whether the final contribution of the word at index `i` is positive:
exactly when the effective polarity and the negation flip disagree. -/
def contribPositive (original : List Char) (words : List (List Char)) (i : Nat) : Bool :=
  wIsPosEff original words i == !hasNegWindow words i

/-- The scoring-engine step as the specification words it: words in
neither lexicon contribute nothing and leave the accumulator unchanged;
a lexicon word contributes `stepContrib` to the score and is recorded in
the positive- or negative-hit bucket according to the sign of that final
contribution, with negation-flip, intensified and diminished evidence
recorded from the same backward window. -/
def specScoringStep (original : List Char) (words : List (List Char)) (i : Nat)
    (ctx : Ctx) : Ctx :=
  let w := words.getD i []
  if wIsPosEff original words i || wIsNegEff original words i then
    { score := ctx.score + stepContrib original words i,
      pos_hits :=
        if contribPositive original words i then ctx.pos_hits ++ [w] else ctx.pos_hits,
      neg_hits :=
        if contribPositive original words i then ctx.neg_hits else ctx.neg_hits ++ [w],
      flipped_hits :=
        if hasNegWindow words i then ctx.flipped_hits ++ ["negated:".data ++ w]
        else ctx.flipped_hits,
      intens_hits := if hasIntWindow words i then ctx.intens_hits ++ [w] else ctx.intens_hits,
      dim_hits := if hasDimWindow words i then ctx.dim_hits ++ [w] else ctx.dim_hits,
      emo_hits := ctx.emo_hits }
  else ctx

lemma stepWord_eq (original : List Char) (words : List (List Char)) (i : Nat) (ctx : Ctx) :
    stepWord original words i ctx = specScoringStep original words i ctx := by
  unfold stepWord specScoringStep stepContrib contribPositive
  rcases hg : wIsPosEff original words i || wIsNegEff original words i with _ | _
  · simp [hg]
  · rcases hP : wIsPosEff original words i with _ | _ <;>
    rcases hN : hasNegWindow words i with _ | _ <;>
    rcases hI : hasIntWindow words i with _ | _ <;>
    rcases hD : hasDimWindow words i with _ | _ <;>
      simp only [hg, hP, hN, hI, hD, if_true, if_false, Bool.true_and, Bool.false_and,
        Bool.not_true, Bool.not_false, beq_iff_eq, ite_true, ite_false] <;>
      norm_num

/-- The word recorded as a positive hit at index `i` (empty when the word
is skipped or its final contribution is negative). -/
def posHitAt (original : List Char) (words : List (List Char)) (i : Nat) : List (List Char) :=
  if (wIsPosEff original words i || wIsNegEff original words i) &&
     contribPositive original words i then [words.getD i []] else []

/-- The word recorded as a negative hit at index `i`. -/
def negHitAt (original : List Char) (words : List (List Char)) (i : Nat) : List (List Char) :=
  if (wIsPosEff original words i || wIsNegEff original words i) &&
     !contribPositive original words i then [words.getD i []] else []

/-- The negation-flip evidence recorded at index `i`. -/
def flipAt (original : List Char) (words : List (List Char)) (i : Nat) : List (List Char) :=
  if (wIsPosEff original words i || wIsNegEff original words i) &&
     hasNegWindow words i then ["negated:".data ++ words.getD i []] else []

/-- The intensified evidence recorded at index `i`. -/
def intAt (original : List Char) (words : List (List Char)) (i : Nat) : List (List Char) :=
  if (wIsPosEff original words i || wIsNegEff original words i) &&
     hasIntWindow words i then [words.getD i []] else []

/-- The diminished evidence recorded at index `i`. -/
def dimAt (original : List Char) (words : List (List Char)) (i : Nat) : List (List Char) :=
  if (wIsPosEff original words i || wIsNegEff original words i) &&
     hasDimWindow words i then [words.getD i []] else []

lemma specStep_score (original : List Char) (words : List (List Char)) (i : Nat) (ctx : Ctx) :
    (specScoringStep original words i ctx).score = ctx.score + stepContrib original words i := by
  unfold specScoringStep stepContrib
  rcases hg : wIsPosEff original words i || wIsNegEff original words i with _ | _ <;> simp [hg]

lemma specStep_pos (original : List Char) (words : List (List Char)) (i : Nat) (ctx : Ctx) :
    (specScoringStep original words i ctx).pos_hits =
      ctx.pos_hits ++ posHitAt original words i := by
  unfold specScoringStep posHitAt
  rcases hg : wIsPosEff original words i || wIsNegEff original words i with _ | _ <;>
    rcases hc : contribPositive original words i with _ | _ <;> simp [hg, hc]

lemma specStep_neg (original : List Char) (words : List (List Char)) (i : Nat) (ctx : Ctx) :
    (specScoringStep original words i ctx).neg_hits =
      ctx.neg_hits ++ negHitAt original words i := by
  unfold specScoringStep negHitAt
  rcases hg : wIsPosEff original words i || wIsNegEff original words i with _ | _ <;>
    rcases hc : contribPositive original words i with _ | _ <;> simp [hg, hc]

lemma specStep_flip (original : List Char) (words : List (List Char)) (i : Nat) (ctx : Ctx) :
    (specScoringStep original words i ctx).flipped_hits =
      ctx.flipped_hits ++ flipAt original words i := by
  unfold specScoringStep flipAt
  rcases hg : wIsPosEff original words i || wIsNegEff original words i with _ | _ <;>
    rcases hn : hasNegWindow words i with _ | _ <;> simp [hg, hn]

lemma specStep_int (original : List Char) (words : List (List Char)) (i : Nat) (ctx : Ctx) :
    (specScoringStep original words i ctx).intens_hits =
      ctx.intens_hits ++ intAt original words i := by
  unfold specScoringStep intAt
  rcases hg : wIsPosEff original words i || wIsNegEff original words i with _ | _ <;>
    rcases hn : hasIntWindow words i with _ | _ <;> simp [hg, hn]

lemma specStep_dim (original : List Char) (words : List (List Char)) (i : Nat) (ctx : Ctx) :
    (specScoringStep original words i ctx).dim_hits =
      ctx.dim_hits ++ dimAt original words i := by
  unfold specScoringStep dimAt
  rcases hg : wIsPosEff original words i || wIsNegEff original words i with _ | _ <;>
    rcases hn : hasDimWindow words i with _ | _ <;> simp [hg, hn]

lemma specStep_emo (original : List Char) (words : List (List Char)) (i : Nat) (ctx : Ctx) :
    (specScoringStep original words i ctx).emo_hits = ctx.emo_hits := by
  unfold specScoringStep
  rcases hg : wIsPosEff original words i || wIsNegEff original words i with _ | _ <;> simp [hg]

lemma foldl_stepWord (original : List Char) (words : List (List Char)) :
    ∀ (idxs : List ℕ) (ctx : Ctx),
      idxs.foldl (fun c i => stepWord original words i c) ctx =
        ⟨ctx.score + (idxs.map (stepContrib original words)).sum,
         ctx.pos_hits ++ (idxs.map (posHitAt original words)).flatten,
         ctx.neg_hits ++ (idxs.map (negHitAt original words)).flatten,
         ctx.flipped_hits ++ (idxs.map (flipAt original words)).flatten,
         ctx.intens_hits ++ (idxs.map (intAt original words)).flatten,
         ctx.dim_hits ++ (idxs.map (dimAt original words)).flatten,
         ctx.emo_hits⟩ := by
  intro idxs
  induction idxs with
  | nil => intro ctx; cases ctx; simp
  | cons i idxs ih =>
    intro ctx
    rw [List.foldl_cons, stepWord_eq, ih]
    simp [specStep_score, specStep_pos, specStep_neg, specStep_flip, specStep_int,
      specStep_dim, specStep_emo, add_assoc]

/-- The total score contribution of the token loop. -/
def loopScore (original : List Char) (words : List (List Char)) : ℚ :=
  ((List.range words.length).map (stepContrib original words)).sum

/-- The positive hits recorded by the token loop, in order. -/
def loopPosHits (original : List Char) (words : List (List Char)) : List (List Char) :=
  ((List.range words.length).map (posHitAt original words)).flatten

/-- The negative hits recorded by the token loop, in order. -/
def loopNegHits (original : List Char) (words : List (List Char)) : List (List Char) :=
  ((List.range words.length).map (negHitAt original words)).flatten

/-- The negation-flip evidence recorded by the token loop, in order. -/
def loopFlips (original : List Char) (words : List (List Char)) : List (List Char) :=
  ((List.range words.length).map (flipAt original words)).flatten

/-- The intensified evidence recorded by the token loop, in order. -/
def loopIntens (original : List Char) (words : List (List Char)) : List (List Char) :=
  ((List.range words.length).map (intAt original words)).flatten

/-- The diminished evidence recorded by the token loop, in order. -/
def loopDims (original : List Char) (words : List (List Char)) : List (List Char) :=
  ((List.range words.length).map (dimAt original words)).flatten

lemma tokenLoop_eq (original : List Char) (words : List (List Char)) (ctx : Ctx) :
    tokenLoop original words ctx =
      ⟨ctx.score + loopScore original words,
       ctx.pos_hits ++ loopPosHits original words,
       ctx.neg_hits ++ loopNegHits original words,
       ctx.flipped_hits ++ loopFlips original words,
       ctx.intens_hits ++ loopIntens original words,
       ctx.dim_hits ++ loopDims original words,
       ctx.emo_hits⟩ :=
  foldl_stepWord original words (List.range words.length) ctx

/-- The score delta of the "shut up" idiom pass. -/
def shutUpDelta (lowered : List Char) : ℚ :=
  if containsSub "shut up".data lowered then
    let after := afterFirst "shut up".data lowered
    if hasDisbelief after && containsAnySub POS_EVENT_WORDS after then 3/2
    else if !containsAnySub POS_EVENT_WORDS after then -1/5
    else 0
  else 0

/-- The positive-hit tag appended by the "shut up" idiom pass. -/
def shutUpPosTag (lowered : List Char) : List (List Char) :=
  if containsSub "shut up".data lowered then
    let after := afterFirst "shut up".data lowered
    if hasDisbelief after && containsAnySub POS_EVENT_WORDS after then
      ["shut up! (excited disbelief)".data]
    else []
  else []

/-- The negative-hit tag appended by the "shut up" idiom pass. -/
def shutUpNegTag (lowered : List Char) : List (List Char) :=
  if containsSub "shut up".data lowered then
    let after := afterFirst "shut up".data lowered
    if hasDisbelief after && containsAnySub POS_EVENT_WORDS after then []
    else if !containsAnySub POS_EVENT_WORDS after then ["shut up (harsh)".data]
    else []
  else []

lemma shutUpPass_eq (lowered : List Char) (ctx : Ctx) :
    shutUpPass lowered ctx =
      { ctx with score := ctx.score + shutUpDelta lowered,
                 pos_hits := ctx.pos_hits ++ shutUpPosTag lowered,
                 neg_hits := ctx.neg_hits ++ shutUpNegTag lowered } := by
  unfold shutUpPass shutUpDelta shutUpPosTag shutUpNegTag
  rcases h1 : containsSub "shut up".data lowered with _ | _
  · simp [h1]
  · rcases h2 : hasDisbelief (afterFirst "shut up".data lowered) with _ | _ <;>
    rcases h3 : containsAnySub POS_EVENT_WORDS (afterFirst "shut up".data lowered)
        with _ | _ <;>
      simp [h1, h2, h3] <;> ring_nf

/-- The score delta one character contributes in the emoji scan. -/
def emojiCharDelta (c : Char) : ℚ :=
  if [c] ∈ POS_EMOJI then 3/5 else if [c] ∈ NEG_EMOJI then -3/5 else 0

/-- Whether one character is recorded in the emoji evidence list. -/
def isEmojiHit (c : Char) : Bool :=
  decide ([c] ∈ POS_EMOJI) || decide ([c] ∈ NEG_EMOJI)

/-- The total score delta of the emoji scan. -/
def emojiDelta (original : List Char) : ℚ := (original.map emojiCharDelta).sum

lemma emojiPass_eq (original : List Char) : ∀ ctx : Ctx,
    emojiPass original ctx =
      { ctx with score := ctx.score + emojiDelta original,
                 emo_hits := ctx.emo_hits ++ original.filter isEmojiHit } := by
  unfold emojiPass emojiDelta
  induction original with
  | nil => intro ctx; simp
  | cons c cs ih =>
    intro ctx
    rw [List.foldl_cons, ih]
    unfold emojiStep emojiCharDelta isEmojiHit
    rcases h1 : decide ([c] ∈ POS_EMOJI) with _ | _ <;>
      rcases h2 : decide ([c] ∈ NEG_EMOJI) with _ | _ <;>
      simp_all <;> ring_nf

/-- The score delta of the exclamation boost. -/
def exclaimDelta (original : List Char) : ℚ :=
  if original.count '!' ≠ 0 then ((min (original.count '!') 3 : ℕ) : ℚ) * (1/5) else 0

lemma exclaimPass_eq (original : List Char) (ctx : Ctx) :
    exclaimPass original ctx = { ctx with score := ctx.score + exclaimDelta original } := by
  unfold exclaimPass exclaimDelta
  by_cases h : original.count '!' = 0 <;> simp [h]

/-- The score delta of the ellipsis sarcasm dampener, as a function of
the positive-hit evidence accumulated so far. -/
def ellipsisDelta (original : List Char) (posHits : List (List Char)) : ℚ :=
  if hasTrailingEllipsis (pyStrip original) &&
     SARCASM_WORDS.any (fun w => decide (w ∈ posHits)) then -2/5 else 0

lemma ellipsisPass_eq (original : List Char) (ctx : Ctx) :
    ellipsisPass original ctx =
      { ctx with score := ctx.score + ellipsisDelta original ctx.pos_hits } := by
  unfold ellipsisPass ellipsisDelta
  rcases h1 : hasTrailingEllipsis (pyStrip original) with _ | _ <;>
    rcases h2 : SARCASM_WORDS.any (fun w => decide (w ∈ ctx.pos_hits)) with _ | _ <;>
    simp [h1, h2] <;> ring_nf

/-- The score delta of the "not bad" idiom. -/
def notBadDelta (lowered : List Char) : ℚ := if hasNotBad lowered then 1 else 0

/-- The score delta of the "not good" idiom. -/
def notGoodDelta (lowered : List Char) : ℚ := if hasNotGood lowered then -1 else 0

lemma notBadPass_eq (lowered : List Char) (ctx : Ctx) :
    notBadPass lowered ctx =
      { ctx with score := ctx.score + notBadDelta lowered,
                 pos_hits := ctx.pos_hits ++
                   (if hasNotBad lowered then ["not bad".data] else []) } := by
  unfold notBadPass notBadDelta
  rcases h : hasNotBad lowered with _ | _ <;> simp [h]

lemma notGoodPass_eq (lowered : List Char) (ctx : Ctx) :
    notGoodPass lowered ctx =
      { ctx with score := ctx.score + notGoodDelta lowered,
                 neg_hits := ctx.neg_hits ++
                   (if hasNotGood lowered then ["not good".data] else []) } := by
  unfold notGoodPass notGoodDelta
  rcases h : hasNotGood lowered with _ | _ <;> simp [h] <;> ring_nf

/-- The positive-hit evidence available when the ellipsis dampener runs:
the idiom tag, if any, followed by the token-loop hits. -/
def posHitsBeforeEllipsis (text : List Char) : List (List Char) :=
  shutUpPosTag (pyLower text) ++ loopPosHits text (wordsOf text)

lemma classifyCtx_score (text : List Char) :
    (classifyCtx text).score =
      shutUpDelta (pyLower text) + loopScore text (wordsOf text) + emojiDelta text +
      exclaimDelta text + ellipsisDelta text (posHitsBeforeEllipsis text) +
      notBadDelta (pyLower text) + notGoodDelta (pyLower text) := by
  unfold classifyCtx posHitsBeforeEllipsis
  rw [shutUpPass_eq, tokenLoop_eq, emojiPass_eq, exclaimPass_eq, ellipsisPass_eq,
    notBadPass_eq, notGoodPass_eq]
  simp [initCtx, add_assoc]

/-
Integer mirror of the score.  Every delta the classifier adds is an
integer multiple of 1/40, so the score is mirrored in fortieths as an
integer-valued computation; the equivalence is proved once and concrete
inputs are then evaluated by kernel reduction on the integer mirror
(rational normalization does not reduce in the kernel).
-/

/-- `stepContrib` in fortieths. -/
def scaledStep (original : List Char) (words : List (List Char)) (i : Nat) : ℤ :=
  if wIsPosEff original words i || wIsNegEff original words i then
    (if wIsPosEff original words i then 1 else -1) *
    (if hasNegWindow words i then -1 else 1) *
    (if hasIntWindow words i then (if hasDimWindow words i then 39 else 60)
     else (if hasDimWindow words i then 26 else 40))
  else 0

lemma stepContrib_scaled (original : List Char) (words : List (List Char)) (i : Nat) :
    stepContrib original words i = (scaledStep original words i : ℚ) / 40 := by
  unfold stepContrib scaledStep
  rcases hg : wIsPosEff original words i || wIsNegEff original words i with _ | _ <;>
    rcases hP : wIsPosEff original words i with _ | _ <;>
    rcases hN : hasNegWindow words i with _ | _ <;>
    rcases hI : hasIntWindow words i with _ | _ <;>
    rcases hD : hasDimWindow words i with _ | _ <;>
      simp [hg, hP, hN, hI, hD] <;> norm_num

/-- `loopScore` in fortieths. -/
def scaledLoop (original : List Char) (words : List (List Char)) : ℤ :=
  ((List.range words.length).map (scaledStep original words)).sum

lemma loopScore_scaled (original : List Char) (words : List (List Char)) :
    loopScore original words = (scaledLoop original words : ℚ) / 40 := by
  unfold loopScore scaledLoop
  induction List.range words.length with
  | nil => simp
  | cons i idxs ih =>
    simp only [List.map_cons, List.sum_cons, ih, stepContrib_scaled]
    push_cast
    ring

/-- `shutUpDelta` in fortieths. -/
def scaledShutUp (lowered : List Char) : ℤ :=
  if containsSub "shut up".data lowered then
    let after := afterFirst "shut up".data lowered
    if hasDisbelief after && containsAnySub POS_EVENT_WORDS after then 60
    else if !containsAnySub POS_EVENT_WORDS after then -8
    else 0
  else 0

lemma shutUpDelta_scaled (lowered : List Char) :
    shutUpDelta lowered = (scaledShutUp lowered : ℚ) / 40 := by
  unfold shutUpDelta scaledShutUp
  rcases h1 : containsSub "shut up".data lowered with _ | _ <;>
    rcases h2 : hasDisbelief (afterFirst "shut up".data lowered) with _ | _ <;>
    rcases h3 : containsAnySub POS_EVENT_WORDS (afterFirst "shut up".data lowered)
      with _ | _ <;>
    simp [h1, h2, h3] <;> norm_num

/-- `emojiCharDelta` in fortieths. -/
def scaledEmojiChar (c : Char) : ℤ :=
  if [c] ∈ POS_EMOJI then 24 else if [c] ∈ NEG_EMOJI then -24 else 0

/-- `emojiDelta` in fortieths. -/
def scaledEmoji (original : List Char) : ℤ := (original.map scaledEmojiChar).sum

lemma emojiDelta_scaled (original : List Char) :
    emojiDelta original = (scaledEmoji original : ℚ) / 40 := by
  unfold emojiDelta scaledEmoji
  induction original with
  | nil => simp
  | cons c cs ih =>
    simp only [List.map_cons, List.sum_cons, ih]
    have hc : emojiCharDelta c = (scaledEmojiChar c : ℚ) / 40 := by
      unfold emojiCharDelta scaledEmojiChar
      by_cases h1 : [c] ∈ POS_EMOJI <;> by_cases h2 : [c] ∈ NEG_EMOJI <;>
        simp [h1, h2] <;> norm_num
    rw [hc]
    push_cast
    ring

/-- `exclaimDelta` in fortieths. -/
def scaledExclaim (original : List Char) : ℤ :=
  if original.count '!' ≠ 0 then ((min (original.count '!') 3 : ℕ) : ℤ) * 8 else 0

lemma exclaimDelta_scaled (original : List Char) :
    exclaimDelta original = (scaledExclaim original : ℚ) / 40 := by
  unfold exclaimDelta scaledExclaim
  by_cases h : original.count '!' = 0 <;> simp [h] <;> push_cast <;> ring

/-- `ellipsisDelta` in fortieths. -/
def scaledEllipsis (original : List Char) (posHits : List (List Char)) : ℤ :=
  if hasTrailingEllipsis (pyStrip original) &&
     SARCASM_WORDS.any (fun w => decide (w ∈ posHits)) then -16 else 0

lemma ellipsisDelta_scaled (original : List Char) (posHits : List (List Char)) :
    ellipsisDelta original posHits = (scaledEllipsis original posHits : ℚ) / 40 := by
  unfold ellipsisDelta scaledEllipsis
  rcases h : hasTrailingEllipsis (pyStrip original) &&
      SARCASM_WORDS.any (fun w => decide (w ∈ posHits)) with _ | _ <;>
    simp [h] <;> norm_num

/-- `notBadDelta` in fortieths. -/
def scaledNotBad (lowered : List Char) : ℤ := if hasNotBad lowered then 40 else 0

/-- `notGoodDelta` in fortieths. -/
def scaledNotGood (lowered : List Char) : ℤ := if hasNotGood lowered then -40 else 0

/-- The whole final score in fortieths, including the empty-input
short-circuit. -/
def scaledScoreOf (text : List Char) : ℤ :=
  if text = [] ∨ pyStrip text = [] then 0 else
    scaledShutUp (pyLower text) + scaledLoop text (wordsOf text) + scaledEmoji text +
    scaledExclaim text + scaledEllipsis text (posHitsBeforeEllipsis text) +
    scaledNotBad (pyLower text) + scaledNotGood (pyLower text)

lemma scoreOf_scaled (text : List Char) :
    scoreOf text = (scaledScoreOf text : ℚ) / 40 := by
  unfold scoreOf scaledScoreOf
  by_cases h : text = [] ∨ pyStrip text = []
  · simp [h]
  · simp only [h, if_false, classifyCtx_score, shutUpDelta_scaled, loopScore_scaled,
      emojiDelta_scaled, exclaimDelta_scaled, ellipsisDelta_scaled]
    unfold notBadDelta scaledNotBad notGoodDelta scaledNotGood
    rcases hb : hasNotBad (pyLower text) with _ | _ <;>
      rcases hg : hasNotGood (pyLower text) with _ | _ <;>
      simp [hb, hg] <;> push_cast <;> ring

lemma classify_label (text : List Char) (re : Bool) :
    (classify_sentiment text re).1 = labelFromScore (scoreOf text) := by
  unfold classify_sentiment scoreOf labelFromScore
  by_cases h : text = [] ∨ pyStrip text = [] <;> simp [h] <;> norm_num

example : scaledScoreOf "This is great".data = 40 := by decide
example : scaledScoreOf "sick".data = 40 := by decide
example : scaledScoreOf "not bad".data = 80 := by decide
example : scaledScoreOf "That's great...".data = 24 := by decide
example : scaledScoreOf "That's great".data = 40 := by decide
example : scaledScoreOf "shut up xfr lunch".data = 60 := by decide
example : scaledScoreOf "Shut up! Did you really buy me lunch?".data = 68 := by decide
example : scaledScoreOf "❤️".data = 0 := by decide
example : scaledScoreOf "🙂🙂".data = 48 := by decide
example : scaledScoreOf "This is not great".data = -40 := by decide
example : scaledScoreOf "This is very great".data = 60 := by decide

lemma sortedDedup_nodup (l : List (List Char)) : (sortedDedup l).Nodup :=
  (List.perm_insertionSort _ l.dedup).nodup_iff.mpr l.nodup_dedup

lemma mem_sortedDedup (a : List Char) (l : List (List Char)) :
    a ∈ sortedDedup l ↔ a ∈ l :=
  (List.perm_insertionSort _ l.dedup).mem_iff.trans (List.mem_dedup)

lemma searchSuffixes_or (p q : List Char → Bool) : ∀ l : List Char,
    searchSuffixes (fun s => p s || q s) l = (searchSuffixes p l || searchSuffixes q l) := by
  intro l
  induction l with
  | nil => rfl
  | cons c cs ih =>
    unfold searchSuffixes
    rw [ih]
    rcases p (c :: cs) <;> rcases q (c :: cs) <;>
      rcases searchSuffixes p cs <;> rcases searchSuffixes q cs <;> rfl

lemma searchWithPrev_or (p q : Option Char → List Char → Bool) :
    ∀ (l : List Char) (prev : Option Char),
      searchWithPrev (fun pr s => p pr s || q pr s) prev l =
        (searchWithPrev p prev l || searchWithPrev q prev l) := by
  intro l
  induction l with
  | nil => intro prev; rfl
  | cons c cs ih =>
    intro prev
    unfold searchWithPrev
    rw [ih]
    rcases p prev (c :: cs) <;> rcases q prev (c :: cs) <;>
      rcases searchWithPrev p (some c) cs <;> rcases searchWithPrev q (some c) cs <;> rfl

/-- One position of a `\b`-delimited phrase pattern whose words are
separated by `\s+`. -/
def matchPhraseAt : List (List Char) → List Char → Bool
  | [], _ => true
  | [w], l => isPrefixB w l && boundaryAfter (l.drop w.length)
  | w :: ws, l =>
    isPrefixB w l &&
    (let r := l.drop w.length
     !(r.takeWhile isPySpace).isEmpty && matchPhraseAt ws (r.dropWhile isPySpace))

/-- `re.search` of a `\b`-delimited phrase with `\s+` between its words:
a leading word boundary, the words in order, a trailing word boundary. -/
def hasSpacedPhrase (ws : List (List Char)) (l : List Char) : Bool :=
  searchWithPrev (fun prev s => boundaryBefore prev && matchPhraseAt ws s) none l

lemma hasNotBad_phrase (l : List Char) :
    hasNotBad l = hasSpacedPhrase ["not".data, "bad".data] l := by
  unfold hasNotBad hasSpacedPhrase
  congr 1
  funext prev s
  unfold matchNotBadAt matchPhraseAt
  rcases boundaryBefore prev <;> rcases isPrefixB "not".data s <;>
    simp [matchPhraseAt, Bool.and_assoc]

lemma hasNotGood_phrase (l : List Char) :
    hasNotGood l = (hasSpacedPhrase ["not".data, "good".data] l ||
      hasSpacedPhrase ["not".data, "so".data, "good".data] l) := by
  unfold hasNotGood hasSpacedPhrase
  rw [← searchWithPrev_or]
  congr 1
  funext prev s
  unfold matchNotGoodAt matchPhraseAt
  rcases boundaryBefore prev <;> rcases isPrefixB "not".data s <;>
    rcases hsp : ((s.drop 3).takeWhile isPySpace).isEmpty <;>
    simp [hsp, matchPhraseAt, Bool.and_assoc, Bool.and_or_distrib_left]

/-- The constituent singleton characters of `POS_EMOJI`: every entry of
the set except the two-codepoint red-heart sequence. -/
def posEmojiSingles : List Char :=
  ['🙂','😊','😄','😃','😁','😍','🥰','💖','🔥','✨','👍','👏','🙌','😁','😂','🤣','😎','✅','💯']

/-- The constituent singleton characters of `NEG_EMOJI` (all entries). -/
def negEmojiSingles : List Char :=
  ['☹','🙁','😞','😠','😡','💔','👎','😢','😭','🤮','🤢','😤','😒','😓','😕','❌']

lemma mem_POS_EMOJI_iff (c : Char) : [c] ∈ POS_EMOJI ↔ c ∈ posEmojiSingles := by
  simp [POS_EMOJI, posEmojiSingles]

lemma mem_NEG_EMOJI_iff (c : Char) : [c] ∈ NEG_EMOJI ↔ c ∈ negEmojiSingles := by
  simp [NEG_EMOJI, negEmojiSingles]

lemma emoji_sets_disjoint (c : Char) : [c] ∈ POS_EMOJI → [c] ∉ NEG_EMOJI := by
  rw [mem_POS_EMOJI_iff, mem_NEG_EMOJI_iff]
  intro h
  fin_cases h <;> decide

/-- `re.search` of one phrase alternative followed by a word boundary
(no boundary required before the phrase, as in the disbelief pattern). -/
def hasMarkerTrailingWB (phrase : List Char) (l : List Char) : Bool :=
  searchSuffixes (fun s => isPrefixB phrase s && boundaryAfter (s.drop phrase.length)) l

lemma hasDisbelief_eq (l : List Char) :
    hasDisbelief l =
      (hasMarkerTrailingWB "did you really".data l || hasMarkerTrailingWB "for real".data l ||
       hasMarkerTrailingWB "no way".data l || hasMarkerTrailingWB "fr".data l) := by
  unfold hasDisbelief hasMarkerTrailingWB
  induction l with
  | nil => decide
  | cons c cs ih =>
    unfold searchSuffixes
    rw [ih]
    have hhd : matchesDisbeliefAt (c :: cs) =
        ((isPrefixB "did you really".data (c :: cs) &&
            boundaryAfter ((c :: cs).drop "did you really".data.length)) ||
         (isPrefixB "for real".data (c :: cs) &&
            boundaryAfter ((c :: cs).drop "for real".data.length)) ||
         (isPrefixB "no way".data (c :: cs) &&
            boundaryAfter ((c :: cs).drop "no way".data.length)) ||
         (isPrefixB "fr".data (c :: cs) &&
            boundaryAfter ((c :: cs).drop "fr".data.length))) := by
      simp [matchesDisbeliefAt, disbeliefAlts, strs, Bool.or_assoc]
    rw [hhd]
    rcases isPrefixB "did you really".data (c :: cs) &&
        boundaryAfter ((c :: cs).drop "did you really".data.length) <;>
      rcases isPrefixB "for real".data (c :: cs) &&
          boundaryAfter ((c :: cs).drop "for real".data.length) <;>
      rcases isPrefixB "no way".data (c :: cs) &&
          boundaryAfter ((c :: cs).drop "no way".data.length) <;>
      rcases isPrefixB "fr".data (c :: cs) &&
          boundaryAfter ((c :: cs).drop "fr".data.length) <;>
      rcases searchSuffixes (fun s =>
          isPrefixB "did you really".data s &&
            boundaryAfter (s.drop "did you really".data.length)) cs <;>
      rcases searchSuffixes (fun s =>
          isPrefixB "for real".data s && boundaryAfter (s.drop "for real".data.length)) cs <;>
      rcases searchSuffixes (fun s =>
          isPrefixB "no way".data s && boundaryAfter (s.drop "no way".data.length)) cs <;>
      rcases searchSuffixes (fun s =>
          isPrefixB "fr".data s && boundaryAfter (s.drop "fr".data.length)) cs <;>
      rfl

/-
The claims.
-/

/-- C1: for every input string, the returned label is determined by the
final score via the fixed symmetric thresholds: the label is "positive"
iff the score is at least 1/2, "negative" iff it is at most -1/2, and
"neutral" exactly on the open interval (-1/2, 1/2). -/
theorem C1_label_thresholds (text : List Char) :
    ((classify_sentiment text false).1 = "positive" ↔ 1/2 ≤ scoreOf text) ∧
    ((classify_sentiment text false).1 = "negative" ↔ scoreOf text ≤ -1/2) ∧
    ((classify_sentiment text false).1 = "neutral" ↔
      (-1/2 < scoreOf text ∧ scoreOf text < 1/2)) := by
  rw [classify_label text false]
  unfold labelFromScore
  rcases le_or_lt (1/2 : ℚ) (scoreOf text) with h1 | h1
  · rw [if_pos h1]
    exact ⟨⟨fun _ => h1, fun _ => rfl⟩,
      ⟨fun h => absurd h (by decide), fun h => absurd h (by linarith)⟩,
      ⟨fun h => absurd h (by decide), fun h => absurd h.2 (by linarith)⟩⟩
  · rw [if_neg (not_le.mpr h1)]
    rcases le_or_lt (scoreOf text) (-1/2 : ℚ) with h2 | h2
    · rw [if_pos h2]
      exact ⟨⟨fun h => absurd h (by decide), fun h => absurd h (by linarith)⟩,
        ⟨fun _ => h2, fun _ => rfl⟩,
        ⟨fun h => absurd h (by decide), fun h => absurd h.1 (by linarith)⟩⟩
    · rw [if_neg (not_le.mpr h2)]
      exact ⟨⟨fun h => absurd h (by decide), fun h => absurd h (by linarith)⟩,
        ⟨fun h => absurd h (by decide), fun h => absurd h (by linarith)⟩,
        ⟨fun _ => ⟨h2, h1⟩, fun _ => rfl⟩⟩

/-- C2: the scoring step for the word at index `i` behaves exactly as
specified: words with an effective lexicon polarity contribute their
base polarity times -1 when a negator occurs among the up-to-3 preceding
words, times 3/2 when an intensifier occurs there (applied before), and
times 13/20 when a diminisher occurs there; the contribution is added to
the running score and the word is recorded under the positive- or
negative-hit bucket according to the sign of the final contribution;
words in neither lexicon contribute nothing and produce no evidence. -/
theorem C2_scoring_step :
    (∀ (original : List Char) (words : List (List Char)) (i : Nat) (ctx : Ctx),
        stepWord original words i ctx = specScoringStep original words i ctx) ∧
    (∀ (original : List Char) (words : List (List Char)) (i : Nat),
        (wIsPosEff original words i || wIsNegEff original words i) = true →
          (contribPositive original words i = true ↔ 0 < stepContrib original words i)) := by
  refine ⟨stepWord_eq, fun o ws i hg => ?_⟩
  unfold contribPositive stepContrib
  simp only [hg]
  rcases hP : wIsPosEff o ws i with _ | _ <;>
    rcases hN : hasNegWindow ws i with _ | _ <;>
    rcases hI : hasIntWindow ws i with _ | _ <;>
    rcases hD : hasDimWindow ws i with _ | _ <;>
    simp [hP, hN, hI, hD] <;> norm_num

/-- Witness for C2 at a concrete instance: the word "bad" at index 1 of
"not bad", and positivity of the contribution of "great" at index 0. -/
theorem C2_scoring_step_witness :
    stepWord [] ["not".data, "bad".data] 1 initCtx =
      specScoringStep [] ["not".data, "bad".data] 1 initCtx ∧
    (contribPositive [] ["great".data] 0 = true ↔ 0 < stepContrib [] ["great".data] 0) :=
  ⟨C2_scoring_step.1 [] ["not".data, "bad".data] 1 initCtx,
   C2_scoring_step.2 [] ["great".data] 0 (by decide)⟩

/-- C3: the claim fails on the code.  The ambiguous slang words are
members of `POS_WORDS`, so they carry a default positive polarity: on
the input "sick" the contextual resolution condition is false (no
positive lookahead word and no exclamation mark), yet the word scores
+1.0 and the final label is "positive", where the claim requires it to
contribute nothing. -/
theorem C3_ambiguous_default_polarity :
    "sick".data ∈ AMBIG_WORDS ∧
    "sick".data ∈ POS_WORDS ∧
    ambigResolves "sick".data (wordsOf "sick".data) 0 = false ∧
    wIsPosEff "sick".data (wordsOf "sick".data) 0 = true ∧
    scoreOf "sick".data = 1 ∧
    (classify_sentiment "sick".data false).1 = "positive" := by
  refine ⟨by decide, by decide, by decide, by decide, ?_, ?_⟩
  · rw [scoreOf_scaled, show scaledScoreOf "sick".data = 40 from by decide]
    norm_num
  · rw [classify_label, scoreOf_scaled, show scaledScoreOf "sick".data = 40 from by decide]
    unfold labelFromScore
    norm_num

/-- C4 counterexample: the disbelief pattern does not require a word
boundary before "fr", so "xfr" triggers it.  On "shut up xfr lunch" the
remainder after "shut up" contains none of the claim's disbelief
markers ("did you really", "for real", "no way", or the standalone word
"fr") but does contain a positive-event word, so the claim predicts no
idiom delta and (with every other pass contributing zero) a neutral
result; the code adds +1.5 and returns "positive". -/
theorem C4_counterexample :
    containsSub "shut up".data (pyLower "shut up xfr lunch".data) = true ∧
    hasSpacedPhrase ["fr".data]
      (afterFirst "shut up".data (pyLower "shut up xfr lunch".data)) = false ∧
    containsSub "did you really".data
      (afterFirst "shut up".data (pyLower "shut up xfr lunch".data)) = false ∧
    containsSub "for real".data
      (afterFirst "shut up".data (pyLower "shut up xfr lunch".data)) = false ∧
    containsSub "no way".data
      (afterFirst "shut up".data (pyLower "shut up xfr lunch".data)) = false ∧
    containsAnySub POS_EVENT_WORDS
      (afterFirst "shut up".data (pyLower "shut up xfr lunch".data)) = true ∧
    scaledLoop "shut up xfr lunch".data (wordsOf "shut up xfr lunch".data) = 0 ∧
    scaledEmoji "shut up xfr lunch".data = 0 ∧
    scaledExclaim "shut up xfr lunch".data = 0 ∧
    scaledNotBad (pyLower "shut up xfr lunch".data) = 0 ∧
    scaledNotGood (pyLower "shut up xfr lunch".data) = 0 ∧
    scaledEllipsis "shut up xfr lunch".data
      (posHitsBeforeEllipsis "shut up xfr lunch".data) = 0 ∧
    shutUpDelta (pyLower "shut up xfr lunch".data) = 3/2 ∧
    scoreOf "shut up xfr lunch".data = 3/2 ∧
    (classify_sentiment "shut up xfr lunch".data false).1 = "positive" := by
  refine ⟨by decide, by decide, by decide, by decide, by decide, by decide, by decide,
    by decide, by decide, by decide, by decide, by decide, ?_, ?_, ?_⟩
  · rw [shutUpDelta_scaled,
      show scaledShutUp (pyLower "shut up xfr lunch".data) = 60 from by decide]
    norm_num
  · rw [scoreOf_scaled, show scaledScoreOf "shut up xfr lunch".data = 60 from by decide]
    norm_num
  · rw [classify_label, scoreOf_scaled,
      show scaledScoreOf "shut up xfr lunch".data = 60 from by decide]
    unfold labelFromScore
    norm_num

/-- C4 (amended): the "shut up" idiom fires at most once, inspects only
the text after the first occurrence, adds +1.5 with the excited-
disbelief tag when that remainder has a disbelief marker and a
positive-event word, subtracts 0.2 with the harsh tag when the remainder
has no positive-event word, and otherwise adds nothing — where a
disbelief marker is "did you really", "for real", "no way", or "fr"
ending at a word boundary (a word boundary is not required before "fr"). -/
theorem C4_shut_up_idiom :
    (∀ (lowered : List Char) (ctx : Ctx),
        shutUpPass lowered ctx =
          { ctx with score := ctx.score + shutUpDelta lowered,
                     pos_hits := ctx.pos_hits ++ shutUpPosTag lowered,
                     neg_hits := ctx.neg_hits ++ shutUpNegTag lowered }) ∧
    (∀ lowered : List Char,
        shutUpDelta lowered =
          if containsSub "shut up".data lowered then
            (let after := afterFirst "shut up".data lowered
             if (hasMarkerTrailingWB "did you really".data after ||
                 hasMarkerTrailingWB "for real".data after ||
                 hasMarkerTrailingWB "no way".data after ||
                 hasMarkerTrailingWB "fr".data after) &&
                containsAnySub POS_EVENT_WORDS after then 3/2
             else if !containsAnySub POS_EVENT_WORDS after then -1/5
             else 0)
          else 0) := by
  refine ⟨shutUpPass_eq, fun lowered => ?_⟩
  unfold shutUpDelta
  simp only [hasDisbelief_eq]

/-- C5 counterexample: on empty and whitespace-only input the evidence
record carries only the score; every evidence-collection key is absent
(`none`), not present as an empty collection. -/
theorem C5_counterexample :
    classify_sentiment [] true = ("neutral", some emptyEvidence) ∧
    classify_sentiment "   ".data true = ("neutral", some emptyEvidence) ∧
    emptyEvidence.positive_hits ≠ some [] ∧
    emptyEvidence.negative_hits ≠ some [] ∧
    emptyEvidence.flipped_by_negation ≠ some [] ∧
    emptyEvidence.intensified ≠ some [] ∧
    emptyEvidence.diminished ≠ some [] ∧
    emptyEvidence.emoji ≠ some [] := by
  refine ⟨?_, ?_, by decide, by decide, by decide, by decide, by decide, by decide⟩ <;> rfl

/-- C5 (amended): every empty or whitespace-only input short-circuits to
label "neutral" with score 0.0, bypassing every other pass; the evidence
record returned for it contains only the score, with every collection
key absent rather than present and empty. -/
theorem C5_empty_input (text : List Char) (h : text = [] ∨ pyStrip text = []) :
    classify_sentiment text true = ("neutral", some emptyEvidence) ∧
    classify_sentiment text false = ("neutral", none) ∧
    scoreOf text = 0 := by
  unfold classify_sentiment scoreOf
  rw [if_pos h, if_pos h, if_pos h]
  exact ⟨rfl, rfl, rfl⟩

/-- Witness for C5 at the whitespace-only input "   ". -/
theorem C5_empty_input_witness :
    ("   ".data = [] ∨ pyStrip "   ".data = []) ∧
    classify_sentiment "   ".data true = ("neutral", some emptyEvidence) :=
  ⟨Or.inr (by decide), (C5_empty_input "   ".data (Or.inr (by decide))).1⟩

lemma emojiDelta_counts (original : List Char) :
    emojiDelta original =
      (3/5 : ℚ) * (original.countP (fun c => decide ([c] ∈ POS_EMOJI)) : ℕ) -
      (3/5 : ℚ) * (original.countP (fun c => decide ([c] ∈ NEG_EMOJI)) : ℕ) := by
  induction original with
  | nil => simp [emojiDelta]
  | cons c cs ih =>
    have hstep : emojiDelta (c :: cs) = emojiCharDelta c + emojiDelta cs := by
      simp [emojiDelta]
    rw [hstep, ih]
    by_cases h1 : [c] ∈ POS_EMOJI
    · have h2 : [c] ∉ NEG_EMOJI := emoji_sets_disjoint c h1
      simp [emojiCharDelta, h1, h2, List.countP_cons]
      push_cast
      ring
    · by_cases h2 : [c] ∈ NEG_EMOJI
      · simp [emojiCharDelta, h1, h2, List.countP_cons]
        push_cast
        ring
      · simp [emojiCharDelta, h1, h2, List.countP_cons]

/-- C6: scanning the raw text character by character, each character in
the positive-emoji set adds 0.6 and each character in the negative-emoji
set subtracts 0.6; every qualifying character is counted independently
and appended to the emoji evidence in encounter order with duplicates,
while the reported positive-hit, negative-hit, negation-flip,
intensified and diminished collections are deduplicated. -/
theorem C6_emoji_and_dedup :
    (∀ (original : List Char) (ctx : Ctx),
        emojiPass original ctx =
          { ctx with
            score := ctx.score +
              ((3/5 : ℚ) * (original.countP (fun c => decide ([c] ∈ POS_EMOJI)) : ℕ) -
               (3/5 : ℚ) * (original.countP (fun c => decide ([c] ∈ NEG_EMOJI)) : ℕ)),
            emo_hits := ctx.emo_hits ++ original.filter isEmojiHit }) ∧
    (∀ ctx : Ctx,
        (buildEvidence ctx).emoji = some ctx.emo_hits ∧
        (buildEvidence ctx).positive_hits = some (sortedDedup ctx.pos_hits) ∧
        (buildEvidence ctx).negative_hits = some (sortedDedup ctx.neg_hits) ∧
        (buildEvidence ctx).flipped_by_negation = some (sortedDedup ctx.flipped_hits) ∧
        (buildEvidence ctx).intensified = some (sortedDedup ctx.intens_hits) ∧
        (buildEvidence ctx).diminished = some (sortedDedup ctx.dim_hits)) ∧
    (∀ l : List (List Char),
        (sortedDedup l).Nodup ∧ ∀ a : List Char, a ∈ sortedDedup l ↔ a ∈ l) := by
  refine ⟨fun original ctx => ?_, fun ctx => ⟨rfl, rfl, rfl, rfl, rfl, rfl⟩,
    fun l => ⟨sortedDedup_nodup l, fun a => mem_sortedDedup a l⟩⟩
  rw [emojiPass_eq, emojiDelta_counts]

/-- C7: the ellipsis sarcasm dampener subtracts 0.4 exactly when the
trimmed input ends in three literal dots or the ellipsis glyph and the
positive-hit evidence accumulated so far contains one of "great",
"awesome", "amazing", "perfect", "nice"; in particular the score of
"That's great..." is exactly 0.4 less than the score of "That's great". -/
theorem C7_ellipsis_dampening :
    (∀ (original : List Char) (ctx : Ctx),
        ellipsisPass original ctx =
          { ctx with score := ctx.score +
              (if hasTrailingEllipsis (pyStrip original) &&
                  SARCASM_WORDS.any (fun w => decide (w ∈ ctx.pos_hits)) then -2/5 else 0) }) ∧
    scoreOf "That's great...".data = scoreOf "That's great".data - 2/5 := by
  constructor
  · intro original ctx
    rw [ellipsisPass_eq]
    rfl
  · rw [scoreOf_scaled, scoreOf_scaled,
      show scaledScoreOf "That's great...".data = 24 from by decide,
      show scaledScoreOf "That's great".data = 40 from by decide]
    norm_num

/-- C8: "not bad" as a boundary-delimited phrase adds +1.0 with tag
"not bad"; "not good" or "not so good" subtracts 1.0 with tag
"not good"; the idiom deltas are one additive layer of the final score,
independent of the token-level scoring of "bad"/"good": on "not bad" the
token loop contributes +1 (flipped "bad") and the idiom +1, total 2. -/
theorem C8_polarity_flip_idioms :
    (∀ (lowered : List Char) (ctx : Ctx),
        notBadPass lowered ctx =
          { ctx with
            score := ctx.score +
              (if hasSpacedPhrase ["not".data, "bad".data] lowered then 1 else 0),
            pos_hits := ctx.pos_hits ++
              (if hasSpacedPhrase ["not".data, "bad".data] lowered
               then ["not bad".data] else []) }) ∧
    (∀ (lowered : List Char) (ctx : Ctx),
        notGoodPass lowered ctx =
          { ctx with
            score := ctx.score +
              (if hasSpacedPhrase ["not".data, "good".data] lowered ||
                  hasSpacedPhrase ["not".data, "so".data, "good".data] lowered
               then -1 else 0),
            neg_hits := ctx.neg_hits ++
              (if hasSpacedPhrase ["not".data, "good".data] lowered ||
                  hasSpacedPhrase ["not".data, "so".data, "good".data] lowered
               then ["not good".data] else []) }) ∧
    (∀ text : List Char,
        scoreOf text =
          if text = [] ∨ pyStrip text = [] then 0 else
            shutUpDelta (pyLower text) + loopScore text (wordsOf text) + emojiDelta text +
            exclaimDelta text + ellipsisDelta text (posHitsBeforeEllipsis text) +
            notBadDelta (pyLower text) + notGoodDelta (pyLower text)) ∧
    loopScore "not bad".data (wordsOf "not bad".data) = 1 ∧
    notBadDelta (pyLower "not bad".data) = 1 ∧
    scoreOf "not bad".data = 2 := by
  refine ⟨fun lowered ctx => ?_, fun lowered ctx => ?_, fun text => ?_, ?_, ?_, ?_⟩
  · rw [notBadPass_eq]
    simp only [notBadDelta, hasNotBad_phrase]
  · rw [notGoodPass_eq]
    simp only [notGoodDelta, hasNotGood_phrase]
  · unfold scoreOf
    by_cases h : text = [] ∨ pyStrip text = []
    · rw [if_pos h, if_pos h]
    · rw [if_neg h, if_neg h, classifyCtx_score]
  · rw [loopScore_scaled,
      show scaledLoop "not bad".data (wordsOf "not bad".data) = 40 from by decide]
    norm_num
  · simp [notBadDelta, show hasNotBad (pyLower "not bad".data) = true from by decide]
  · rw [scoreOf_scaled, show scaledScoreOf "not bad".data = 80 from by decide]
    norm_num

/-- C9: requesting the evidence record never changes the label: for
every input the label returned with evidence equals the label returned
without it. -/
theorem C9_evidence_no_influence (text : List Char) :
    (classify_sentiment text true).1 = (classify_sentiment text false).1 := by
  rw [classify_label, classify_label]

/-- C10: the emoji scan compares single characters against the emoji
sets, so the two-codepoint red-heart entry of `POS_EMOJI` can never
equal a scanned character: membership of a scanned character reduces to
the single-character entries, and the input consisting only of the
red-heart sequence scores 0.0 and is labeled "neutral". -/
theorem C10_heart_entry_unmatchable :
    "❤️".data = ['❤', '️'] ∧
    ['❤', '️'] ∈ POS_EMOJI ∧
    (∀ c : Char, [c] ≠ ['❤', '️']) ∧
    (∀ c : Char, [c] ∈ POS_EMOJI ↔ c ∈ posEmojiSingles) ∧
    scoreOf "❤️".data = 0 ∧
    classify_sentiment "❤️".data false = ("neutral", none) := by
  refine ⟨by decide, by decide, fun c h => by simp at h, mem_POS_EMOJI_iff, ?_, ?_⟩
  · rw [scoreOf_scaled, show scaledScoreOf "❤️".data = 0 from by decide]
    norm_num
  · refine Prod.ext ?_ (by decide)
    rw [classify_label, scoreOf_scaled, show scaledScoreOf "❤️".data = 0 from by decide]
    unfold labelFromScore
    norm_num
